import Mathlib

/-!
Verification of the carbon-scheduler core against its specification.

The embedding models `src/backend/app/services/carbon_api.py`:
* `find_optimal_window` — the sliding-window optimal-window selection
  (timestamps are modelled as integers, Python floats as rationals,
  Python `int(x)` as truncation toward zero);
* `get_forecast` — the cache/TTL/fetch layer, with the network fetch and
  payload parsing abstracted as an `Except`-valued input, and the
  current UTC wall-clock hour/minute passed explicitly so that the
  half-hour rounding performed before the request is modelled faithfully.
-/

deriving instance DecidableEq for Except

namespace CarbonScheduler

/-- One forecast sample (`CarbonIntensity` pydantic model): a time slot with
its carbon intensity in gCO2/kWh. Timestamps are modelled as integers. -/
structure CarbonIntensity where
  from_time : ℤ
  to_time : ℤ
  intensity : ℤ
deriving DecidableEq

/-- Result entity (`OptimalWindow` pydantic model). All metric fields are
Python `int`s. -/
structure OptimalWindow where
  start_time : ℤ
  end_time : ℤ
  avg_intensity : ℤ
  carbon_saved_grams : ℤ
  percentage_saved : ℤ
  current_intensity : ℤ
deriving DecidableEq

/-- Python `int(x)` applied to a float: truncation toward zero. -/
def truncToZero (q : ℚ) : ℤ :=
  if 0 ≤ q then ⌊q⌋ else ⌈q⌉

/-- The two failure exits of `find_optimal_window`:
`ValueError("Forecast period too short for task duration")` and
`Exception("Could not find optimal window")`. -/
inductive WindowError where
  | insufficientForecast
  | noWindow
deriving DecidableEq

/-- The slice `forecast[i : i + d]`. -/
def windowSlots (forecast : List CarbonIntensity) (i d : ℕ) : List CarbonIntensity :=
  (forecast.drop i).take d

/-- `sum(slot.intensity for slot in window) / len(window)` for the window
starting at index `i`. -/
def windowAvg (forecast : List CarbonIntensity) (i d : ℕ) : ℚ :=
  (((windowSlots forecast i d).map (fun s => (s.intensity : ℚ))).sum) /
    ((windowSlots forecast i d).length : ℚ)

/-- `forecast[0].intensity`, the "current intensity (if running now)". -/
def baseline (forecast : List CarbonIntensity) : ℤ :=
  ((forecast.head?).map CarbonIntensity.intensity).getD 0

/-- The `OptimalWindow` record built in the loop body for the window starting
at index `i`: metrics derived from the window average, the first-slot
(`current`) intensity and the energy demand, each truncated by `int(...)`. -/
def mkWindow (forecast : List CarbonIntensity) (energy_kwh : ℚ) (current : ℤ)
    (i d : ℕ) : OptimalWindow :=
  let window := windowSlots forecast i d
  let avg : ℚ := windowAvg forecast i d
  let carbon_now : ℚ := (current : ℚ) * energy_kwh
  let carbon_optimal : ℚ := avg * energy_kwh
  let carbon_saved : ℚ := carbon_now - carbon_optimal
  let percentage_saved : ℚ :=
    if 0 < carbon_now then carbon_saved / carbon_now * 100 else 0
  { start_time := ((window.head?).map CarbonIntensity.from_time).getD 0
    end_time := ((window.getLast?).map CarbonIntensity.to_time).getD 0
    avg_intensity := truncToZero avg
    carbon_saved_grams := truncToZero (carbon_saved * 1000)
    percentage_saved := truncToZero percentage_saved
    current_intensity := current }

/-- State of the `for i in range(n)` scan after the first `n` iterations:
`none` models `best_window = None` with `lowest_avg_intensity = inf`;
`some (low, best)` carries the lowest average seen and the record built
when it was found. A candidate replaces the best only on strict
improvement (`avg_intensity < lowest_avg_intensity`). -/
def scanWindows (forecast : List CarbonIntensity) (d : ℕ) (energy_kwh : ℚ)
    (current : ℤ) : ℕ → Option (ℚ × OptimalWindow)
  | 0 => none
  | n + 1 =>
    match scanWindows forecast d energy_kwh current n with
    | none => some (windowAvg forecast n d, mkWindow forecast energy_kwh current n d)
    | some (low, best) =>
      if windowAvg forecast n d < low then
        some (windowAvg forecast n d, mkWindow forecast energy_kwh current n d)
      else
        some (low, best)

/-- The index of the window held as best after the first `n` iterations. -/
def bestIdx (forecast : List CarbonIntensity) (d : ℕ) : ℕ → ℕ
  | 0 => 0
  | 1 => 0
  | n + 2 =>
    if windowAvg forecast (n + 1) d < windowAvg forecast (bestIdx forecast d (n + 1)) d then
      n + 1
    else
      bestIdx forecast d (n + 1)

/-- The index of the window `find_optimal_window` finally selects: the loop
runs over `range(len(forecast) - duration + 1)` candidates. -/
def selectedIdx (forecast : List CarbonIntensity) (d : ℕ) : ℕ :=
  bestIdx forecast d (forecast.length - d + 1)

/-- `find_optimal_window(forecast, duration_hours, energy_kwh)`.
Raises `ValueError` when the forecast is shorter than the duration;
otherwise scans every candidate window and returns the best record.
(The model is exercised in the `duration_hours ≥ 1` regime mandated by
the task-profile contract; Python's `ZeroDivisionError` for an empty
window cannot occur there.) -/
def find_optimal_window (forecast : List CarbonIntensity) (duration_hours : ℕ)
    (energy_kwh : ℚ) : Except WindowError OptimalWindow :=
  if forecast.length < duration_hours then
    Except.error WindowError.insufficientForecast
  else
    match scanWindows forecast duration_hours energy_kwh (baseline forecast)
        (forecast.length - duration_hours + 1) with
    | none => Except.error WindowError.noWindow
    | some (_, best) => Except.ok best

/-- A fetched forecast payload: the parsed list of slots. -/
abbrev Payload := List CarbonIntensity

/-- What can go wrong between `requests.get` and the parsed payload.
`network`, `httpStatus` and `jsonDecode` are members of the
`requests.exceptions.RequestException` family (connection errors,
`raise_for_status`, `response.json()`); `badShape` is a `KeyError` /
`TypeError` / `ValueError` raised while indexing into a syntactically
valid JSON document of unexpected shape. -/
inductive FetchFailure where
  | network
  | httpStatus
  | jsonDecode
  | badShape
deriving DecidableEq

/-- How a `get_forecast` failure surfaces to the caller.
`upstreamUnavailable` is the wrapped
`Exception("Failed to fetch carbon intensity data: ...")` raised by the
`except requests.exceptions.RequestException` handler; `uncaughtParse` is
a raw exception escaping the handler; `uncaughtHourOverflow` is the
`ValueError` raised by `datetime.replace(hour=24)`. -/
inductive ForecastError where
  | upstreamUnavailable (cause : FetchFailure)
  | uncaughtParse (cause : FetchFailure)
  | uncaughtHourOverflow
deriving DecidableEq

/-- The `except requests.exceptions.RequestException` clause: it wraps
exactly the `RequestException` family; a shape error escapes it. -/
def wrapFailure : FetchFailure → ForecastError
  | FetchFailure.network => ForecastError.upstreamUnavailable FetchFailure.network
  | FetchFailure.httpStatus => ForecastError.upstreamUnavailable FetchFailure.httpStatus
  | FetchFailure.jsonDecode => ForecastError.upstreamUnavailable FetchFailure.jsonDecode
  | FetchFailure.badShape => ForecastError.uncaughtParse FetchFailure.badShape

/-- The "round to next half hour" normalization: for minute < 30 the code
sets the minute to 30; otherwise it calls `now.replace(hour=now.hour + 1)`,
and `datetime.replace` raises `ValueError` when the new hour is not in
0..23. Returns the rounded (hour, minute). -/
def round_up_half_hour (hour minute : ℕ) : Except String (ℕ × ℕ) :=
  if minute < 30 then Except.ok (hour, 30)
  else if hour + 1 < 24 then Except.ok (hour + 1, 0)
  else Except.error "hour must be in 0..23"

/-- The in-memory cache: key, payload and the `time.time()` of the store. -/
abbrev Cache := List (String × (Payload × ℚ))

/-- Dictionary read `_cache[key]` (as `key in _cache` plus lookup). -/
def cacheLookup (cache : Cache) (key : String) : Option (Payload × ℚ) :=
  (cache.find? (fun e => e.1 == key)).map (fun e => e.2)

/-- Dictionary write `_cache[key] = value`. -/
def cacheInsert (cache : Cache) (key : String) (v : Payload × ℚ) : Cache :=
  (key, v) :: cache.filter (fun e => !(e.1 == key))

/-- `cache_key = f"forecast_{hours_ahead}"` — the postcode parameter is not
part of the key. -/
def forecast_cache_key (postcode : String) (hours_ahead : ℕ) : String :=
  "forecast_" ++ toString hours_ahead

/-- `cache_expiry = 15 * 60` seconds. -/
def forecast_cache_expiry : ℚ := 15 * 60

/-- The fetch-and-store path of `get_forecast` once the cache did not
answer: half-hour rounding of the wall clock, then the network call
(abstracted by `fetch`), then the cache write stamped with the
`time.time()` read after the fetch (`tStore`). The third component counts
`requests.get` invocations. -/
def fetch_and_store (cache : Cache) (key : String) (hour minute : ℕ)
    (tStore : ℚ) (fetch : Except FetchFailure Payload) :
    Except ForecastError Payload × Cache × ℕ :=
  match round_up_half_hour hour minute with
  | Except.error _ => (Except.error ForecastError.uncaughtHourOverflow, cache, 0)
  | Except.ok _ =>
    match fetch with
    | Except.ok payload =>
      (Except.ok payload, cacheInsert cache key (payload, tStore), 1)
    | Except.error f => (Except.error (wrapFailure f), cache, 1)

/-- `get_forecast(postcode, hours_ahead)` as a state transformer over the
cache. `hour`/`minute` are the current UTC wall clock, `tCheck` the
`time.time()` read at the cache check, `tStore` the one at the cache
write, and `fetch` the outcome of the network call and payload parse. -/
def get_forecast (cache : Cache) (postcode : String) (hours_ahead : ℕ)
    (hour minute : ℕ) (tCheck tStore : ℚ)
    (fetch : Except FetchFailure Payload) :
    Except ForecastError Payload × Cache × ℕ :=
  let key := forecast_cache_key postcode hours_ahead
  match cacheLookup cache key with
  | some (data, t) =>
    if tCheck - t < forecast_cache_expiry then (Except.ok data, cache, 0)
    else fetch_and_store cache key hour minute tStore fetch
  | none => fetch_and_store cache key hour minute tStore fetch

/-- Two-slot series with distinct intensities, used at `len(S) == d`. -/
def twoSlotSeries : List CarbonIntensity :=
  [{ from_time := 0, to_time := 1, intensity := 200 },
   { from_time := 1, to_time := 2, intensity := 100 }]

/-- Series whose first slot is strictly cheaper than every 2-slot window
average: baseline 100 against best window average 150. -/
def risingSeries : List CarbonIntensity :=
  [{ from_time := 0, to_time := 1, intensity := 100 },
   { from_time := 1, to_time := 2, intensity := 200 },
   { from_time := 2, to_time := 3, intensity := 200 }]

/-- The record `find_optimal_window` returns on `risingSeries` with
duration 2 and energy 1: negative savings. -/
def risingWindow : OptimalWindow :=
  { start_time := 0, end_time := 2, avg_intensity := 150,
    carbon_saved_grams := -50000, percentage_saved := -50,
    current_intensity := 100 }

/-- The record `find_optimal_window` returns on `twoSlotSeries` with
duration 2 and energy 1: the only candidate is the whole series, yet the
savings are 50000 g (25%), not zero, because the baseline is slot 0's
intensity 200 while the window mean is 150. -/
def twoSlotWindow : OptimalWindow :=
  { start_time := 0, end_time := 2, avg_intensity := 150,
    carbon_saved_grams := 50000, percentage_saved := 25,
    current_intensity := 200 }

/-- A one-slot payload used to exercise the cache model. -/
def samplePayload : Payload :=
  [{ from_time := 0, to_time := 1, intensity := 100 }]

/-- After one iteration the best index is 0. -/
theorem bestIdx_one (S : List CarbonIntensity) (d : ℕ) : bestIdx S d 1 = 0 := rfl

/-- Invariant of the strict-improvement scan: after `n` iterations the held
index is a candidate, its average is minimal among the first `n` windows,
and every strictly earlier window has a strictly larger average. -/
theorem bestIdx_spec (S : List CarbonIntensity) (d : ℕ) :
    ∀ n, 0 < n →
      bestIdx S d n < n ∧
      (∀ j, j < n → windowAvg S (bestIdx S d n) d ≤ windowAvg S j d) ∧
      (∀ j, j < bestIdx S d n → windowAvg S (bestIdx S d n) d < windowAvg S j d)
  | 1, _ => by
    refine ⟨by norm_num [bestIdx], ?_, ?_⟩
    · intro j hj
      have : j = 0 := by omega
      subst this
      exact le_refl _
    · intro j hj
      simp [bestIdx] at hj
  | n + 2, _ => by
    obtain ⟨ih1, ih2, ih3⟩ := bestIdx_spec S d (n + 1) (by omega)
    by_cases h : windowAvg S (n + 1) d < windowAvg S (bestIdx S d (n + 1)) d
    · have hsel : bestIdx S d (n + 2) = n + 1 := by
        simp only [bestIdx, if_pos h]
      rw [hsel]
      refine ⟨by omega, ?_, ?_⟩
      · intro j hj
        rcases Nat.lt_succ_iff_lt_or_eq.mp hj with hj' | rfl
        · exact le_of_lt (lt_of_lt_of_le h (ih2 j hj'))
        · exact le_refl _
      · intro j hj
        exact lt_of_lt_of_le h (ih2 j hj)
    · have hsel : bestIdx S d (n + 2) = bestIdx S d (n + 1) := by
        simp only [bestIdx, if_neg h]
      rw [hsel]
      refine ⟨by omega, ?_, ih3⟩
      intro j hj
      rcases Nat.lt_succ_iff_lt_or_eq.mp hj with hj' | rfl
      · exact ih2 j hj'
      · exact not_lt.mp h

/-- One unfolding step of the scan. -/
theorem scanWindows_succ (S : List CarbonIntensity) (d : ℕ) (e : ℚ) (cur : ℤ)
    (n : ℕ) :
    scanWindows S d e cur (n + 1) =
      match scanWindows S d e cur n with
      | none => some (windowAvg S n d, mkWindow S e cur n d)
      | some (low, best) =>
        if windowAvg S n d < low then
          some (windowAvg S n d, mkWindow S e cur n d)
        else
          some (low, best) := rfl

/-- The scan state after `n ≥ 1` iterations holds exactly the window at
`bestIdx` together with its average. -/
theorem scanWindows_eq (S : List CarbonIntensity) (d : ℕ) (e : ℚ) (cur : ℤ) :
    ∀ n, 0 < n →
      scanWindows S d e cur n =
        some (windowAvg S (bestIdx S d n) d, mkWindow S e cur (bestIdx S d n) d)
  | 1, _ => rfl
  | n + 2, _ => by
    have ih := scanWindows_eq S d e cur (n + 1) (by omega)
    rw [scanWindows_succ, ih]
    dsimp only
    by_cases h : windowAvg S (n + 1) d < windowAvg S (bestIdx S d (n + 1)) d
    · rw [if_pos h]
      have hb : bestIdx S d (n + 2) = n + 1 := by simp only [bestIdx, if_pos h]
      rw [hb]
    · rw [if_neg h]
      have hb : bestIdx S d (n + 2) = bestIdx S d (n + 1) := by
        simp only [bestIdx, if_neg h]
      rw [hb]

/-- On a sufficiently long series, `find_optimal_window` returns the record
built for the selected index. -/
theorem find_optimal_window_eq (S : List CarbonIntensity) (d : ℕ) (e : ℚ)
    (h : d ≤ S.length) :
    find_optimal_window S d e =
      Except.ok (mkWindow S e (baseline S) (selectedIdx S d) d) := by
  unfold find_optimal_window
  rw [if_neg (by omega)]
  rw [scanWindows_eq S d e (baseline S) (S.length - d + 1) (by omega)]
  rfl

/-- The selected index is a valid window start. -/
theorem selectedIdx_lt (S : List CarbonIntensity) (d : ℕ) (h : d ≤ S.length) :
    selectedIdx S d + d ≤ S.length := by
  have := (bestIdx_spec S d (S.length - d + 1) (by omega)).1
  unfold selectedIdx
  omega

/-- The selected window's average is minimal over all candidates. -/
theorem selectedIdx_min (S : List CarbonIntensity) (d : ℕ) (h : d ≤ S.length) :
    ∀ j, j + d ≤ S.length → windowAvg S (selectedIdx S d) d ≤ windowAvg S j d := by
  intro j hj
  exact (bestIdx_spec S d (S.length - d + 1) (by omega)).2.1 j (by omega)

/-- Every window starting strictly earlier than the selected one has a
strictly larger average. -/
theorem selectedIdx_earlier_strict (S : List CarbonIntensity) (d : ℕ) :
    ∀ j, j < selectedIdx S d →
      windowAvg S (selectedIdx S d) d < windowAvg S j d := by
  intro j hj
  exact (bestIdx_spec S d (S.length - d + 1) (by omega)).2.2 j hj

/-- The record fields, read off the loop body. -/
theorem mkWindow_fields (S : List CarbonIntensity) (e : ℚ) (cur : ℤ) (i d : ℕ) :
    (mkWindow S e cur i d).avg_intensity = truncToZero (windowAvg S i d) ∧
    (mkWindow S e cur i d).carbon_saved_grams =
      truncToZero (((cur : ℚ) * e - windowAvg S i d * e) * 1000) ∧
    (mkWindow S e cur i d).percentage_saved =
      truncToZero (if 0 < (cur : ℚ) * e then
        ((cur : ℚ) * e - windowAvg S i d * e) / ((cur : ℚ) * e) * 100 else 0) ∧
    (mkWindow S e cur i d).current_intensity = cur :=
  ⟨rfl, rfl, rfl, rfl⟩

/-- The baseline of a nonempty series is its first slot's intensity and
inherits its sign bound. -/
theorem baseline_nonneg (S : List CarbonIntensity) (h : S ≠ [])
    (hnn : ∀ s ∈ S, 0 ≤ s.intensity) : 0 ≤ baseline S := by
  cases S with
  | nil => exact absurd rfl h
  | cons a t => exact hnn a (by simp)

/-- Truncation of zero is zero. -/
theorem truncToZero_zero : truncToZero 0 = 0 := by
  simp [truncToZero]

/-- Claim C1: for every series `S`, duration `d` with `len(S) ≥ d ≥ 1` and
positive energy demand, `find_optimal_window` returns the window built at
the selected index, a valid window start whose average intensity is ≤ the
mean of every contiguous `d`-length sub-sequence of `S`. -/
theorem c1_selected_window_minimizes_mean (S : List CarbonIntensity) (d : ℕ)
    (e : ℚ) (hd : 1 ≤ d) (hlen : d ≤ S.length) (he : 0 < e) :
    find_optimal_window S d e =
      Except.ok (mkWindow S e (baseline S) (selectedIdx S d) d) ∧
    selectedIdx S d + d ≤ S.length ∧
    ∀ j, j + d ≤ S.length →
      windowAvg S (selectedIdx S d) d ≤ windowAvg S j d :=
  ⟨find_optimal_window_eq S d e hlen, selectedIdx_lt S d hlen,
   selectedIdx_min S d hlen⟩

/-- Witness for C1 at the two-slot series with `d = 2`, `e = 1`. -/
theorem c1_witness :
    find_optimal_window twoSlotSeries 2 1 =
      Except.ok (mkWindow twoSlotSeries 1 (baseline twoSlotSeries)
        (selectedIdx twoSlotSeries 2) 2) ∧
    selectedIdx twoSlotSeries 2 + 2 ≤ twoSlotSeries.length ∧
    ∀ j, j + 2 ≤ twoSlotSeries.length →
      windowAvg twoSlotSeries (selectedIdx twoSlotSeries 2) 2 ≤
        windowAvg twoSlotSeries j 2 :=
  c1_selected_window_minimizes_mean twoSlotSeries 2 1 (by decide)
    (by simp [twoSlotSeries]) (by norm_num)

/-- Claim C2: among candidates attaining the minimal mean, the selected
index is the smallest; the result is the deterministic record built at
that index. -/
theorem c2_earliest_tie_break (S : List CarbonIntensity) (d : ℕ) (e : ℚ)
    (hd : 1 ≤ d) (hlen : d ≤ S.length) (he : 0 < e) :
    find_optimal_window S d e =
      Except.ok (mkWindow S e (baseline S) (selectedIdx S d) d) ∧
    selectedIdx S d + d ≤ S.length ∧
    (∀ j, j + d ≤ S.length →
      windowAvg S (selectedIdx S d) d ≤ windowAvg S j d) ∧
    (∀ j, j + d ≤ S.length →
      windowAvg S j d = windowAvg S (selectedIdx S d) d → selectedIdx S d ≤ j) := by
  refine ⟨find_optimal_window_eq S d e hlen, selectedIdx_lt S d hlen,
    selectedIdx_min S d hlen, ?_⟩
  intro j hj heq
  by_contra hlt
  push_neg at hlt
  exact absurd heq (ne_of_gt (selectedIdx_earlier_strict S d j hlt))

/-- Witness for C2 at the rising series with `d = 2`, `e = 1`. -/
theorem c2_witness :
    find_optimal_window risingSeries 2 1 =
      Except.ok (mkWindow risingSeries 1 (baseline risingSeries)
        (selectedIdx risingSeries 2) 2) ∧
    selectedIdx risingSeries 2 + 2 ≤ risingSeries.length ∧
    (∀ j, j + 2 ≤ risingSeries.length →
      windowAvg risingSeries (selectedIdx risingSeries 2) 2 ≤
        windowAvg risingSeries j 2) ∧
    (∀ j, j + 2 ≤ risingSeries.length →
      windowAvg risingSeries j 2 = windowAvg risingSeries (selectedIdx risingSeries 2) 2 →
        selectedIdx risingSeries 2 ≤ j) :=
  c2_earliest_tie_break risingSeries 2 1 (by decide) (by simp [risingSeries])
    (by norm_num)

/-- Claim C5: with `d ≥ 1`, `find_optimal_window` fails with the
insufficient-forecast error exactly when `len(S) < d`; the internal
no-window error is unreachable, and whenever `len(S) ≥ d` the call returns
exactly one `OptimalWindow`. -/
theorem c5_error_iff_short (S : List CarbonIntensity) (d : ℕ) (e : ℚ)
    (hd : 1 ≤ d) :
    (find_optimal_window S d e = Except.error WindowError.insufficientForecast ↔
      S.length < d) ∧
    find_optimal_window S d e ≠ Except.error WindowError.noWindow ∧
    (d ≤ S.length →
      find_optimal_window S d e =
        Except.ok (mkWindow S e (baseline S) (selectedIdx S d) d)) := by
  by_cases h : S.length < d
  · have herr : find_optimal_window S d e =
        Except.error WindowError.insufficientForecast := by
      unfold find_optimal_window
      rw [if_pos h]
    refine ⟨⟨fun _ => h, fun _ => herr⟩, ?_, fun hle => absurd hle (by omega)⟩
    rw [herr]
    intro hcontra
    exact absurd (Except.error.injEq _ _ ▸ congrArg id hcontra) (by simp)
  · have hok := find_optimal_window_eq S d e (by omega)
    refine ⟨⟨fun hcontra => ?_, fun hlt => absurd hlt h⟩, ?_, fun _ => hok⟩
    · rw [hok] at hcontra
      exact absurd hcontra (by simp)
    · rw [hok]
      simp

/-- Witness for C5 in both regimes: a short series errors, a long one
succeeds. -/
theorem c5_witness :
    ((find_optimal_window [] 2 1 = Except.error WindowError.insufficientForecast ↔
      List.length ([] : List CarbonIntensity) < 2) ∧
     find_optimal_window [] 2 1 ≠ Except.error WindowError.noWindow ∧
     (2 ≤ List.length ([] : List CarbonIntensity) →
       find_optimal_window [] 2 1 =
         Except.ok (mkWindow [] 1 (baseline []) (selectedIdx [] 2) 2))) ∧
    (2 ≤ twoSlotSeries.length →
      find_optimal_window twoSlotSeries 2 1 =
        Except.ok (mkWindow twoSlotSeries 1 (baseline twoSlotSeries)
          (selectedIdx twoSlotSeries 2) 2)) :=
  ⟨c5_error_iff_short [] 2 1 (by decide),
   (c5_error_iff_short twoSlotSeries 2 1 (by decide)).2.2⟩

/-- Claim C3 counterexample: on a two-slot series with intensities 200 and
100 and `len(S) == d == 2` the single candidate is the whole series, yet
`carbon_saved_grams = 50000` and `percentage_saved = 25`, not zero: the
baseline is slot 0's intensity (200), not the window mean (150). -/
theorem c3_counterexample :
    find_optimal_window twoSlotSeries 2 1 = Except.ok twoSlotWindow ∧
    twoSlotWindow.carbon_saved_grams = 50000 ∧
    twoSlotWindow.percentage_saved = 25 := by
  refine ⟨?_, rfl, rfl⟩
  rw [find_optimal_window_eq twoSlotSeries 2 1 (by simp [twoSlotSeries])]
  have hsel : selectedIdx twoSlotSeries 2 = 0 := rfl
  rw [hsel]
  have havg : windowAvg twoSlotSeries 0 2 = 150 := by
    norm_num [windowAvg, windowSlots, twoSlotSeries]
  have hbase : baseline twoSlotSeries = 200 := rfl
  simp only [mkWindow, hbase, havg]
  norm_num [truncToZero, windowSlots, twoSlotSeries, twoSlotWindow,
    OptimalWindow.mk.injEq]

/-- Claim C3 amended: when `len(S) == d ≥ 1` the only candidate is the
whole series, and the savings are measured against slot 0's intensity
rather than the window mean, so they are in general nonzero; whenever the
first slot's intensity equals the series mean (for instance `d = 1` or an
all-constant series), `carbon_saved_grams == 0` and
`percentage_saved == 0`. (Truncation can also zero out sufficiently small
nonzero savings, so this sufficient condition is not necessary.) -/
theorem c3_amended_zero_when_baseline_is_mean (S : List CarbonIntensity)
    (d : ℕ) (e : ℚ) (hd : 1 ≤ d) (hlen : S.length = d) (he : 0 < e)
    (hb : (baseline S : ℚ) = windowAvg S 0 d) :
    find_optimal_window S d e = Except.ok (mkWindow S e (baseline S) 0 d) ∧
    (mkWindow S e (baseline S) 0 d).carbon_saved_grams = 0 ∧
    (mkWindow S e (baseline S) 0 d).percentage_saved = 0 := by
  have hsel : selectedIdx S d = 0 := by
    unfold selectedIdx
    rw [hlen, Nat.sub_self]
    rfl
  have hfields := mkWindow_fields S e (baseline S) 0 d
  refine ⟨?_, ?_, ?_⟩
  · have hok := find_optimal_window_eq S d e hlen.ge
    rwa [hsel] at hok
  · rw [hfields.2.1, ← hb,
      show ((baseline S : ℚ) * e - (baseline S : ℚ) * e) * 1000 = 0 by ring]
    exact truncToZero_zero
  · rw [hfields.2.2.1, ← hb]
    by_cases hpos : 0 < (baseline S : ℚ) * e
    · rw [if_pos hpos,
        show ((baseline S : ℚ) * e - (baseline S : ℚ) * e) /
          ((baseline S : ℚ) * e) * 100 = 0 by ring]
      exact truncToZero_zero
    · rw [if_neg hpos]
      exact truncToZero_zero

/-- Witness for the amended C3 at a one-slot series with `d = 1`,
`e = 3/2`. -/
theorem c3_witness :
    find_optimal_window samplePayload 1 (3 / 2) =
      Except.ok (mkWindow samplePayload (3 / 2) (baseline samplePayload) 0 1) ∧
    (mkWindow samplePayload (3 / 2) (baseline samplePayload) 0 1).carbon_saved_grams = 0 ∧
    (mkWindow samplePayload (3 / 2) (baseline samplePayload) 0 1).percentage_saved = 0 :=
  c3_amended_zero_when_baseline_is_mean samplePayload 1 (3 / 2) (by decide)
    (by simp [samplePayload]) (by norm_num)
    (by norm_num [baseline, windowAvg, windowSlots, samplePayload])

/-- Claim C4: all three metrics are truncations toward zero of their exact
rational values — the minimal window mean, the saving
`(baseline − mean) · energy · 1000`, and the percentage
`saving / (baseline · energy) · 100` guarded by nonzero baseline
emissions. -/
theorem c4_metrics_truncated_toward_zero (S : List CarbonIntensity) (d : ℕ)
    (e : ℚ) (hd : 1 ≤ d) (hlen : d ≤ S.length) (he : 0 < e)
    (hnn : ∀ s ∈ S, 0 ≤ s.intensity) :
    find_optimal_window S d e =
      Except.ok (mkWindow S e (baseline S) (selectedIdx S d) d) ∧
    (mkWindow S e (baseline S) (selectedIdx S d) d).avg_intensity =
      truncToZero (windowAvg S (selectedIdx S d) d) ∧
    (mkWindow S e (baseline S) (selectedIdx S d) d).carbon_saved_grams =
      truncToZero (((baseline S : ℚ) - windowAvg S (selectedIdx S d) d) * e * 1000) ∧
    (mkWindow S e (baseline S) (selectedIdx S d) d).percentage_saved =
      (if (baseline S : ℚ) * e ≠ 0 then
        truncToZero ((((baseline S : ℚ) - windowAvg S (selectedIdx S d) d) * e) /
          ((baseline S : ℚ) * e) * 100)
      else 0) := by
  have hne : S ≠ [] := by
    intro hS
    rw [hS] at hlen
    simp at hlen
    omega
  have hbz : (0 : ℚ) ≤ (baseline S : ℚ) := by
    exact_mod_cast baseline_nonneg S hne hnn
  have hfields := mkWindow_fields S e (baseline S) (selectedIdx S d) d
  refine ⟨find_optimal_window_eq S d e hlen, hfields.1, ?_, ?_⟩
  · rw [hfields.2.1]
    congr 1
    ring
  · rw [hfields.2.2.1]
    rcases eq_or_lt_of_le hbz with hb0 | hbpos
    · rw [← hb0]
      simp [truncToZero_zero]
    · have hce : 0 < (baseline S : ℚ) * e := mul_pos hbpos he
      rw [if_pos hce, if_pos (ne_of_gt hce)]
      congr 1
      ring

/-- Witness for C4 at the two-slot series with `d = 2`, `e = 1`. -/
theorem c4_witness :
    find_optimal_window twoSlotSeries 2 1 =
      Except.ok (mkWindow twoSlotSeries 1 (baseline twoSlotSeries)
        (selectedIdx twoSlotSeries 2) 2) ∧
    (mkWindow twoSlotSeries 1 (baseline twoSlotSeries)
        (selectedIdx twoSlotSeries 2) 2).avg_intensity =
      truncToZero (windowAvg twoSlotSeries (selectedIdx twoSlotSeries 2) 2) ∧
    (mkWindow twoSlotSeries 1 (baseline twoSlotSeries)
        (selectedIdx twoSlotSeries 2) 2).carbon_saved_grams =
      truncToZero (((baseline twoSlotSeries : ℚ) -
        windowAvg twoSlotSeries (selectedIdx twoSlotSeries 2) 2) * 1 * 1000) ∧
    (mkWindow twoSlotSeries 1 (baseline twoSlotSeries)
        (selectedIdx twoSlotSeries 2) 2).percentage_saved =
      (if (baseline twoSlotSeries : ℚ) * 1 ≠ 0 then
        truncToZero ((((baseline twoSlotSeries : ℚ) -
          windowAvg twoSlotSeries (selectedIdx twoSlotSeries 2) 2) * 1) /
          ((baseline twoSlotSeries : ℚ) * 1) * 100)
      else 0) :=
  c4_metrics_truncated_toward_zero twoSlotSeries 2 1 (by decide)
    (by simp [twoSlotSeries]) (by norm_num) (by decide)

/-- Claim C10: savings can be negative — on `risingSeries` with `d = 2`,
`e = 1` the returned record has `carbon_saved_grams = -50000 < 0` and
`percentage_saved = -50 < 0` (the chosen window even contains slot 0) —
and on every valid call the reported `current_intensity` baseline is slot
0's intensity, wherever the optimal window falls. -/
theorem c10_negative_savings :
    find_optimal_window risingSeries 2 1 = Except.ok risingWindow ∧
    risingWindow.carbon_saved_grams < 0 ∧
    risingWindow.percentage_saved < 0 ∧
    ∀ (S : List CarbonIntensity) (d : ℕ) (e : ℚ), 1 ≤ d → d ≤ S.length →
      Except.map OptimalWindow.current_intensity (find_optimal_window S d e) =
        Except.ok (baseline S) := by
  refine ⟨?_, by norm_num [risingWindow], by norm_num [risingWindow], ?_⟩
  · rw [find_optimal_window_eq risingSeries 2 1 (by simp [risingSeries])]
    have havg0 : windowAvg risingSeries 0 2 = 150 := by
      norm_num [windowAvg, windowSlots, risingSeries]
    have havg1 : windowAvg risingSeries 1 2 = 200 := by
      norm_num [windowAvg, windowSlots, risingSeries]
    have hsel : selectedIdx risingSeries 2 = 0 := by
      show bestIdx risingSeries 2 (risingSeries.length - 2 + 1) = 0
      rw [show risingSeries.length - 2 + 1 = 2 from rfl]
      simp only [bestIdx]
      rw [havg1, havg0]
      rw [if_neg (by norm_num)]
    rw [hsel]
    have hbase : baseline risingSeries = 100 := rfl
    simp only [mkWindow, hbase, havg0]
    norm_num [truncToZero, windowSlots, risingSeries, risingWindow,
      Int.ceil_neg, OptimalWindow.mk.injEq]
  · intro S d e hd hlen
    rw [find_optimal_window_eq S d e hlen]
    rfl

/-- Witness for C10's universal baseline clause at the two-slot series. -/
theorem c10_witness :
    Except.map OptimalWindow.current_intensity
        (find_optimal_window twoSlotSeries 2 1) =
      Except.ok (baseline twoSlotSeries) :=
  c10_negative_savings.2.2.2 twoSlotSeries 2 1 (by decide) (by simp [twoSlotSeries])

/-- A freshly inserted entry is found under its key. -/
theorem cacheLookup_insert_self (cache : Cache) (k : String) (v : Payload × ℚ) :
    cacheLookup (cacheInsert cache k v) k = some v := by
  unfold cacheLookup cacheInsert
  rw [List.find?_cons_of_pos _ (by simp)]
  rfl

/-- The empty cache answers no key. -/
theorem cacheLookup_nil (k : String) : cacheLookup [] k = none := rfl

/-- Whatever the failure, a `get_forecast` call with a failing fetch leaves
the cache untouched (the write happens only after a successful parse). -/
theorem get_forecast_error_cache_unchanged (cache : Cache) (postcode : String)
    (hours_ahead hour minute : ℕ) (tCheck tStore : ℚ) (f : FetchFailure) :
    (get_forecast cache postcode hours_ahead hour minute tCheck tStore
      (Except.error f)).2.1 = cache := by
  simp only [get_forecast, fetch_and_store]
  split
  · split
    · rfl
    · split
      · rfl
      · rfl
  · split
    · rfl
    · rfl

/-- On a cache miss (or stale entry) the call runs the fetch path. -/
theorem get_forecast_miss_path (cache : Cache) (postcode : String)
    (hours_ahead hour minute : ℕ) (tCheck tStore : ℚ)
    (fetch : Except FetchFailure Payload)
    (hmiss : cacheLookup cache (forecast_cache_key postcode hours_ahead) = none ∨
      (∀ data t,
        cacheLookup cache (forecast_cache_key postcode hours_ahead) = some (data, t) →
        forecast_cache_expiry ≤ tCheck - t)) :
    get_forecast cache postcode hours_ahead hour minute tCheck tStore fetch =
      fetch_and_store cache (forecast_cache_key postcode hours_ahead) hour minute
        tStore fetch := by
  simp only [get_forecast]
  cases hlk : cacheLookup cache (forecast_cache_key postcode hours_ahead) with
  | none => rfl
  | some v =>
    obtain ⟨data, t⟩ := v
    dsimp only
    rcases hmiss with hnone | hstale
    · rw [hlk] at hnone
      exact absurd hnone (by simp)
    · rw [if_neg (not_lt.mpr (hstale data t hlk))]

/-- Claim C6 counterexample: a cache-miss call made at 23:45 UTC performs
zero network calls and stores nothing — the half-hour rounding crashes
first — contradicting "a call made on a cache miss … performs exactly one
network call and overwrites the cache entry". -/
theorem c6_counterexample :
    cacheLookup [] (forecast_cache_key "G1" 48) = none ∧
    get_forecast [] "G1" 48 23 45 0 0 (Except.ok samplePayload) =
      (Except.error ForecastError.uncaughtHourOverflow, [], 0) :=
  ⟨rfl, rfl⟩

/-- Claim C6 amended: a call whose entry is younger than the TTL returns
the cached payload with no network call and no cache change; a call on a
miss or stale entry, provided the wall clock is not in the crashing
23:30–23:59 range, performs exactly one network call and on success
overwrites the entry with the fresh payload and the post-fetch
timestamp. -/
theorem c6_cache_discipline (cache : Cache) (postcode : String)
    (hours_ahead hour minute : ℕ) (tCheck tStore : ℚ)
    (fetch : Except FetchFailure Payload) :
    (∀ data t,
      cacheLookup cache (forecast_cache_key postcode hours_ahead) = some (data, t) →
      tCheck - t < forecast_cache_expiry →
      get_forecast cache postcode hours_ahead hour minute tCheck tStore fetch =
        (Except.ok data, cache, 0)) ∧
    ((cacheLookup cache (forecast_cache_key postcode hours_ahead) = none ∨
      (∀ data t,
        cacheLookup cache (forecast_cache_key postcode hours_ahead) = some (data, t) →
        forecast_cache_expiry ≤ tCheck - t)) →
      ∀ hm, round_up_half_hour hour minute = Except.ok hm →
        (get_forecast cache postcode hours_ahead hour minute tCheck tStore
          fetch).2.2 = 1 ∧
        ∀ payload, fetch = Except.ok payload →
          get_forecast cache postcode hours_ahead hour minute tCheck tStore fetch =
            (Except.ok payload,
              cacheInsert cache (forecast_cache_key postcode hours_ahead)
                (payload, tStore), 1)) := by
  constructor
  · intro data t hlk hfresh
    simp only [get_forecast]
    rw [hlk]
    dsimp only
    rw [if_pos hfresh]
  · intro hmiss hm hround
    rw [get_forecast_miss_path cache postcode hours_ahead hour minute tCheck
      tStore fetch hmiss]
    unfold fetch_and_store
    rw [hround]
    constructor
    · cases fetch with
      | ok p => rfl
      | error f => rfl
    · intro payload hfetch
      rw [hfetch]

/-- Witness for C6 at an empty cache, noon wall clock and a successful
fetch. -/
theorem c6_witness :
    (get_forecast [] "G1" 48 12 0 0 0 (Except.ok samplePayload)).2.2 = 1 ∧
    get_forecast [] "G1" 48 12 0 0 0 (Except.ok samplePayload) =
      (Except.ok samplePayload,
        cacheInsert [] (forecast_cache_key "G1" 48) (samplePayload, 0), 1) := by
  obtain ⟨h1, h2⟩ := (c6_cache_discipline [] "G1" 48 12 0 0 0
    (Except.ok samplePayload)).2 (Or.inl rfl) (12, 30) rfl
  exact ⟨h1, h2 samplePayload rfl⟩

/-- Claim C7 counterexample: the cache key ignores the postcode, so a
caller asking about "M1" is served the series cached for "G1", with no
network call. -/
theorem c7_counterexample :
    forecast_cache_key "G1" 48 = forecast_cache_key "M1" 48 ∧
    get_forecast (cacheInsert [] (forecast_cache_key "G1" 48) (samplePayload, 0))
        "M1" 48 12 0 10 10 (Except.error FetchFailure.network) =
      (Except.ok samplePayload,
        cacheInsert [] (forecast_cache_key "G1" 48) (samplePayload, 0), 0) := by
  refine ⟨rfl, ?_⟩
  simp only [get_forecast]
  rw [show forecast_cache_key "M1" 48 = forecast_cache_key "G1" 48 from rfl]
  rw [cacheLookup_insert_self]
  dsimp only
  rw [if_pos (by norm_num [forecast_cache_expiry])]

/-- Claim C7 amended: forecast results are keyed by horizon length only;
the location parameter does not enter the key (the implementation requests
the national forecast), so two calls differing only in location share one
cache entry and behave identically. -/
theorem c7_cache_key_ignores_location (p1 p2 : String) (hours_ahead : ℕ)
    (cache : Cache) (hour minute : ℕ) (tCheck tStore : ℚ)
    (fetch : Except FetchFailure Payload) :
    forecast_cache_key p1 hours_ahead = forecast_cache_key p2 hours_ahead ∧
    get_forecast cache p1 hours_ahead hour minute tCheck tStore fetch =
      get_forecast cache p2 hours_ahead hour minute tCheck tStore fetch :=
  ⟨rfl, rfl⟩

/-- Claim C8 counterexample: a syntactically valid payload of unexpected
shape raises a raw error that escapes the `RequestException` handler — the
failure is surfaced as an uncaught parse error, not as the single typed
upstream-unavailable condition. -/
theorem c8_counterexample :
    get_forecast [] "G1" 48 12 0 0 0 (Except.error FetchFailure.badShape) =
      (Except.error (ForecastError.uncaughtParse FetchFailure.badShape), [], 1) :=
  rfl

/-- Claim C8 amended: network errors, non-success HTTP statuses and
JSON-undecodable bodies are wrapped into the single typed
upstream-unavailable condition, but an ill-shaped (valid-JSON) payload
escapes as an uncaught raw error; no failure is replaced by a default
value, and on every failing fetch the cache is left unchanged. -/
theorem c8_failure_surfacing (cache : Cache) (postcode : String)
    (hours_ahead hour minute : ℕ) (tCheck tStore : ℚ) (f : FetchFailure) :
    wrapFailure FetchFailure.network =
      ForecastError.upstreamUnavailable FetchFailure.network ∧
    wrapFailure FetchFailure.httpStatus =
      ForecastError.upstreamUnavailable FetchFailure.httpStatus ∧
    wrapFailure FetchFailure.jsonDecode =
      ForecastError.upstreamUnavailable FetchFailure.jsonDecode ∧
    wrapFailure FetchFailure.badShape =
      ForecastError.uncaughtParse FetchFailure.badShape ∧
    (get_forecast cache postcode hours_ahead hour minute tCheck tStore
      (Except.error f)).2.1 = cache ∧
    (cacheLookup cache (forecast_cache_key postcode hours_ahead) = none →
      ∀ hm, round_up_half_hour hour minute = Except.ok hm →
        get_forecast cache postcode hours_ahead hour minute tCheck tStore
          (Except.error f) = (Except.error (wrapFailure f), cache, 1)) := by
  refine ⟨rfl, rfl, rfl, rfl,
    get_forecast_error_cache_unchanged cache postcode hours_ahead hour minute
      tCheck tStore f, ?_⟩
  intro hlk hm hround
  rw [get_forecast_miss_path cache postcode hours_ahead hour minute tCheck
    tStore (Except.error f) (Or.inl hlk)]
  unfold fetch_and_store
  rw [hround]

/-- Witness for C8 at an empty cache with a network failure. -/
theorem c8_witness :
    get_forecast [] "G1" 48 12 0 0 0 (Except.error FetchFailure.network) =
      (Except.error (wrapFailure FetchFailure.network), [], 1) :=
  (c8_failure_surfacing [] "G1" 48 12 0 0 0 FetchFailure.network).2.2.2.2.2
    rfl (12, 30) rfl

/-- Claim C9: the "round up to the next half-hour" normalization crashes for
every wall-clock time with hour 23 and minute ≥ 30 — `datetime.replace`
rejects hour 24 — instead of rolling over to 00:00; before the bug it does
round 23:29 forward to 23:30. On a cache miss at such a time the whole
`get_forecast` call dies with the uncaught `ValueError` before any network
call. -/
theorem c9_rounding_crashes_at_2330 :
    round_up_half_hour 23 45 = Except.error "hour must be in 0..23" ∧
    round_up_half_hour 23 29 = Except.ok (23, 30) ∧
    get_forecast [] "G1" 48 23 30 0 0 (Except.ok samplePayload) =
      (Except.error ForecastError.uncaughtHourOverflow, [], 0) :=
  ⟨rfl, rfl, rfl⟩

end CarbonScheduler
